import Mathlib

/-!
Verification of the SIH-2025 train-optimization core (`ml_model/`).

This file gives a shallow embedding, in Lean 4, of the deterministic parts of
`train_optimization_model.py` and `weather_service.py`:

* Python dictionaries whose keys are read with `.get(k, default)` are embedded
  as structures with `Option`-typed fields, the default being applied with
  `Option.getD` exactly where the source applies it;
* Python floats are embedded as rationals (`ℚ`); all the constants of the
  source are decimal literals that are exact in `ℚ`;
* network calls, the ML regressors and wall-clock reads are inputs of the
  embedded functions (the source consumes their results through a
  `try/except`, embedded as `Except`/`Option` parameters);
* a function that mutates `self` is embedded as a function from the old state
  to the pair (return value, new state).
-/

/-! ### Python string helpers

`py_lower` embeds `str.lower()`, `py_str_in pat s` embeds Python's
substring containment test `pat in s`. -/

def py_lower (s : String) : String :=
  String.mk (s.toList.map Char.toLower)

def ql_leads (pat s : List Char) : Bool :=
  match pat, s with
  | [], _ => true
  | _ :: _, [] => false
  | p :: ps, c :: cs => p = c && ql_leads ps cs

def ql_in (pat s : List Char) : Bool :=
  match s with
  | [] => ql_leads pat []
  | _ :: rest => ql_leads pat s || ql_in pat rest

def py_str_in (pat s : String) : Bool :=
  ql_in pat.toList s.toList

/-! ### Association lists

Python `dict` membership / read / write on the keys the code touches. -/

def assoc_lookup {α β : Type} [DecidableEq α] (k : α) : List (α × β) → Option β
  | [] => none
  | (k', v) :: rest => if k' = k then some v else assoc_lookup k rest

def assoc_upsert {α β : Type} [DecidableEq α] (k : α) (v : β) :
    List (α × β) → List (α × β)
  | [] => [(k, v)]
  | (k', v') :: rest =>
      if k' = k then (k, v) :: rest else (k', v') :: assoc_upsert k v rest

/-! ## `recommend_optimal_speed` (train_optimization_model.py:528-570) -/

/-- The keys of the `train_features` dict read by `recommend_optimal_speed`
(`train_type`, `weather`, `delay`); each is read with `.get(key, default)`
so each field is an `Option`. -/
structure TrainFeatures where
  train_type : Option String
  weather : Option String
  delay : Option ℚ

/-- Embeds `base_speed_limits.get(train_type, 90)` from the literal dict of
`recommend_optimal_speed`. -/
def base_speed_limits (t : String) : ℚ :=
  if t = "Express" then 110
  else if t = "Superfast" then 130
  else if t = "Passenger" then 90
  else if t = "Freight" then 70
  else if t = "Local" then 80
  else 90

/-- The weather-factor literal dict of `recommend_optimal_speed`, read with
`.get(weather_condition, 1.0)`. -/
def weather_speed_factor (c : String) : ℚ :=
  if c = "Clear" then 1.0
  else if c = "Clouds" then 0.95
  else if c = "Rain" then 0.8
  else if c = "Drizzle" then 0.9
  else if c = "Fog" then 0.6
  else if c = "Mist" then 0.7
  else if c = "Snow" then 0.5
  else if c = "Thunderstorm" then 0.4
  else if c = "Haze" then 0.85
  else 1.0

/-- Python `round(x, 1)`: round to one decimal.  Python breaks exact ties
half-to-even while `round` here breaks them half-up; the two differ only at
exact ties, which does not affect any statement below. -/
def round1 (x : ℚ) : ℚ := (round (x * 10) : ℤ) / 10

/-- Embeds `TrainOptimizationModel.recommend_optimal_speed`. -/
def recommend_optimal_speed (tf : TrainFeatures) (section_congestion : ℚ) : ℚ :=
  let base_speed := base_speed_limits (tf.train_type.getD "Passenger")
  let weather_factor := weather_speed_factor (tf.weather.getD "Clear")
  let congestion_factor := max 0.5 (1 - section_congestion / 200)
  let delay := tf.delay.getD 0
  let delay_factor := min 1.1 (1 + delay / 60 * 0.1)
  let recommended_speed := base_speed * weather_factor * congestion_factor * delay_factor
  let max_safe_speed := base_speed * weather_factor
  round1 (min recommended_speed max_safe_speed)

/-! Facts about the two lookup tables used in the speed-ceiling proof:
every base speed is a positive multiple of 10 and every weather factor is a
positive multiple of 1/20, hence the ceiling `base_speed * weather_factor`
is a nonnegative multiple of 1/10 and survives rounding to one decimal. -/

theorem base_speed_limits_mul (t : String) :
    ∃ m : ℤ, 0 < m ∧ base_speed_limits t = 10 * m := by
  unfold base_speed_limits
  split_ifs
  · exact ⟨11, by norm_num⟩
  · exact ⟨13, by norm_num⟩
  · exact ⟨9, by norm_num⟩
  · exact ⟨7, by norm_num⟩
  · exact ⟨8, by norm_num⟩
  · exact ⟨9, by norm_num⟩

theorem weather_speed_factor_mul (c : String) :
    ∃ k : ℤ, 0 < k ∧ 20 * weather_speed_factor c = k := by
  unfold weather_speed_factor
  split_ifs
  · exact ⟨20, by norm_num⟩
  · exact ⟨19, by norm_num⟩
  · exact ⟨16, by norm_num⟩
  · exact ⟨18, by norm_num⟩
  · exact ⟨12, by norm_num⟩
  · exact ⟨14, by norm_num⟩
  · exact ⟨10, by norm_num⟩
  · exact ⟨8, by norm_num⟩
  · exact ⟨17, by norm_num⟩
  · exact ⟨20, by norm_num⟩

theorem round_le_round_q {x y : ℚ} (h : x ≤ y) : round x ≤ round y := by
  rw [round_eq, round_eq]
  exact Int.floor_le_floor (by linarith)

theorem round1_nonneg {x : ℚ} (h : 0 ≤ x) : 0 ≤ round1 x := by
  unfold round1
  have h10 : (0 : ℚ) ≤ x * 10 := by linarith
  have hr : round (0 : ℚ) ≤ round (x * 10) := round_le_round_q h10
  rw [round_zero] at hr
  exact div_nonneg (by exact_mod_cast hr) (by norm_num)

theorem round1_le_of_le {x : ℚ} {n : ℤ} (h : x ≤ (n : ℚ) / 10) :
    round1 x ≤ (n : ℚ) / 10 := by
  unfold round1
  have h10 : x * 10 ≤ (n : ℚ) := by linarith
  have hr : round (x * 10) ≤ round ((n : ℚ)) := round_le_round_q h10
  rw [round_intCast] at hr
  have : ((round (x * 10) : ℤ) : ℚ) ≤ (n : ℚ) := by exact_mod_cast hr
  linarith

/-- C1: for every train-features dict with nonnegative delay and every
congestion value, `recommend_optimal_speed` returns a value that is
nonnegative and at most `base_speed(train_type) * weather_factor(condition)`
(the weather-safe ceiling). -/
theorem c1_optimal_speed_bounds (tf : TrainFeatures) (section_congestion : ℚ)
    (hdelay : 0 ≤ tf.delay.getD 0) :
    0 ≤ recommend_optimal_speed tf section_congestion ∧
      recommend_optimal_speed tf section_congestion ≤
        base_speed_limits (tf.train_type.getD "Passenger") *
          weather_speed_factor (tf.weather.getD "Clear") := by
  obtain ⟨m, hm, hbase⟩ := base_speed_limits_mul (tf.train_type.getD "Passenger")
  obtain ⟨k, hk, hwf⟩ := weather_speed_factor_mul (tf.weather.getD "Clear")
  unfold recommend_optimal_speed
  set b := base_speed_limits (tf.train_type.getD "Passenger") with hb
  set w := weather_speed_factor (tf.weather.getD "Clear") with hw
  have hbpos : 0 < b := by rw [hbase]; positivity
  have hwpos : 0 < w := by
    have : w = (k : ℚ) / 20 := by rw [← hwf]; ring
    rw [this]; positivity
  have hcf : (0.5 : ℚ) ≤ max 0.5 (1 - section_congestion / 200) := le_max_left _ _
  have hdf : (0 : ℚ) ≤ min 1.1 (1 + tf.delay.getD 0 / 60 * 0.1) := by
    have h1 : (0 : ℚ) ≤ 1.1 := by norm_num
    have h2 : (0 : ℚ) ≤ 1 + tf.delay.getD 0 / 60 * 0.1 := by nlinarith
    exact le_min h1 h2
  have hrs : 0 ≤ b * w * max 0.5 (1 - section_congestion / 200) *
      min 1.1 (1 + tf.delay.getD 0 / 60 * 0.1) := by
    have : (0:ℚ) ≤ max 0.5 (1 - section_congestion / 200) := by linarith
    positivity
  have hms : 0 ≤ b * w := by positivity
  constructor
  · exact round1_nonneg (le_min hrs hms)
  · have hceil : b * w = ((5 * m * k : ℤ) : ℚ) / 10 := by
      rw [hbase]
      have : w = (k : ℚ) / 20 := by rw [← hwf]; ring
      rw [this]
      push_cast
      ring
    have hle : min (b * w * max 0.5 (1 - section_congestion / 200) *
        min 1.1 (1 + tf.delay.getD 0 / 60 * 0.1)) (b * w) ≤ ((5 * m * k : ℤ) : ℚ) / 10 := by
      rw [← hceil]
      exact min_le_right _ _
    have := round1_le_of_le hle
    rw [← hceil] at this
    exact this

/-- Witness for C1 at a concrete input: an Express train in rain with a
20-minute delay and 50% congestion. -/
theorem c1_optimal_speed_bounds_witness :
    0 ≤ (Option.some (20 : ℚ)).getD 0 ∧
      (0 ≤ recommend_optimal_speed ⟨some "Express", some "Rain", some 20⟩ 50 ∧
        recommend_optimal_speed ⟨some "Express", some "Rain", some 20⟩ 50 ≤
          base_speed_limits "Express" * weather_speed_factor "Rain") := by
  refine ⟨by norm_num, ?_⟩
  exact c1_optimal_speed_bounds ⟨some "Express", some "Rain", some 20⟩ 50 (by norm_num)

/-! ## `WeatherService` (weather_service.py)

The sub-dictionaries of the raw OpenWeatherMap payload that
`_process_weather_data` / `_calculate_weather_severity` /
`_calculate_train_impact` read. -/

/-- One element of `raw_data['weather']` (keys `main`, `description`). -/
structure WeatherDict where
  main : Option String
  description : Option String
deriving DecidableEq

/-- Embeds `raw_data['main']` (keys `temp`, `feels_like`, `humidity`, `pressure`). -/
structure MainDict where
  temp : Option ℚ
  feels_like : Option ℚ
  humidity : Option ℚ
  pressure : Option ℚ
deriving DecidableEq

/-- Embeds `raw_data['wind']` (keys `speed`, `deg`, `gust`). -/
structure WindDict where
  speed : Option ℚ
  deg : Option ℚ
  gust : Option ℚ
deriving DecidableEq

/-- Embeds `raw_data['rain']` (keys `1h`, `3h`; `1h` is spelled `oneH`). -/
structure RainDict where
  oneH : Option ℚ
  threeH : Option ℚ
deriving DecidableEq

/-- Embeds `raw_data['snow']` (keys `1h`, `3h`). -/
structure SnowDict where
  oneH : Option ℚ
  threeH : Option ℚ
deriving DecidableEq

/-- The condition block of `_calculate_weather_severity`: points added for
the (lowercased) weather condition string. -/
def condition_score (condition : String) : ℚ :=
  if ["thunderstorm", "tornado", "hurricane"].any (fun c => py_str_in c condition) then 5
  else if ["snow", "blizzard"].any (fun c => py_str_in c condition) then 4
  else if ["rain", "drizzle"].any (fun c => py_str_in c condition) then 3
  else if ["fog", "mist", "haze", "smoke"].any (fun c => py_str_in c condition) then 2
  else if ["clouds", "cloudy"].any (fun c => py_str_in c condition) then 1
  else 0

/-- The temperature-extremes block of `_calculate_weather_severity`. -/
def temp_score (temp : ℚ) : ℚ :=
  if temp > 40 ∨ temp < -10 then 2
  else if temp > 35 ∨ temp < -5 then 1
  else 0

/-- The wind-speed block of `_calculate_weather_severity`. -/
def wind_score (wind_speed : ℚ) : ℚ :=
  if wind_speed > 20 then 3
  else if wind_speed > 10 then 2
  else if wind_speed > 5 then 1
  else 0

/-- The precipitation block of `_calculate_weather_severity`. -/
def precip_score (rain_1h snow_1h : ℚ) : ℚ :=
  if rain_1h > 10 ∨ snow_1h > 5 then 3
  else if rain_1h > 5 ∨ snow_1h > 2 then 2
  else if rain_1h > 1 ∨ snow_1h > 0.5 then 1
  else 0

/-- The visibility block of `_calculate_weather_severity`
(visibility in meters). -/
def visibility_score (visibility : ℚ) : ℚ :=
  if visibility < 1000 then 3
  else if visibility < 5000 then 2
  else if visibility < 10000 then 1
  else 0

/-- Embeds `WeatherService._calculate_weather_severity`: the additive point system,
capped at 10. -/
def calculate_weather_severity (weather : WeatherDict) (main : MainDict)
    (wind : WindDict) (rain : RainDict) (snow : SnowDict) (visibility : ℚ) : ℚ :=
  let condition := py_lower (weather.main.getD "")
  min (condition_score condition + temp_score (main.temp.getD 20) +
    wind_score (wind.speed.getD 0) + precip_score (rain.oneH.getD 0) (snow.oneH.getD 0) +
    visibility_score visibility) 10

/-- The severity-band part of `WeatherService._calculate_train_impact`. -/
def severity_band (severity : ℚ) : ℤ :=
  if severity ≥ 8 then 5
  else if severity ≥ 6 then 4
  else if severity ≥ 4 then 3
  else if severity ≥ 2 then 2
  else if severity ≥ 1 then 1
  else 0

/-- Embeds `WeatherService._calculate_train_impact`: severity band, then the four
train-specific override raises. -/
def calculate_train_impact (severity : ℚ) (weather : WeatherDict)
    (wind : WindDict) (rain : RainDict) (snow : SnowDict) (visibility : ℚ) : ℤ :=
  let impact0 := severity_band severity
  let condition := py_lower (weather.main.getD "")
  let impact1 := if py_str_in "snow" condition ∧ snow.oneH.getD 0 > 3 then
    max impact0 4 else impact0
  let impact2 := if (py_str_in "rain" condition ∨ py_str_in "thunderstorm" condition) ∧
    rain.oneH.getD 0 > 8 then max impact1 4 else impact1
  let impact3 := if wind.speed.getD 0 > 25 then max impact2 4 else impact2
  if visibility < 500 then max impact3 3 else impact3

/-! Score bounds and monotonicity lemmas for C3. -/

theorem condition_score_nonneg (c : String) : 0 ≤ condition_score c := by
  unfold condition_score; split_ifs <;> norm_num

theorem temp_score_nonneg (t : ℚ) : 0 ≤ temp_score t := by
  unfold temp_score; split_ifs <;> norm_num

theorem wind_score_nonneg (w : ℚ) : 0 ≤ wind_score w := by
  unfold wind_score; split_ifs <;> norm_num

theorem precip_score_nonneg (r s : ℚ) : 0 ≤ precip_score r s := by
  unfold precip_score; split_ifs <;> norm_num

theorem visibility_score_nonneg (v : ℚ) : 0 ≤ visibility_score v := by
  unfold visibility_score; split_ifs <;> norm_num

theorem wind_score_mono {a b : ℚ} (h : a ≤ b) : wind_score a ≤ wind_score b := by
  unfold wind_score
  split_ifs <;> linarith

theorem precip_score_mono_rain {r r' : ℚ} (s : ℚ) (h : r ≤ r') :
    precip_score r s ≤ precip_score r' s := by
  unfold precip_score
  split_ifs <;>
    first
      | (norm_num; done)
      | (exfalso; simp only [not_or] at *; casesm* _ ∧ _, _ ∨ _ <;> linarith)

theorem precip_score_mono_snow {s s' : ℚ} (r : ℚ) (h : s ≤ s') :
    precip_score r s ≤ precip_score r s' := by
  unfold precip_score
  split_ifs <;>
    first
      | (norm_num; done)
      | (exfalso; simp only [not_or] at *; casesm* _ ∧ _, _ ∨ _ <;> linarith)

theorem visibility_score_anti {a b : ℚ} (h : a ≤ b) :
    visibility_score b ≤ visibility_score a := by
  unfold visibility_score
  split_ifs <;> linarith

/-- C3: `_calculate_weather_severity` always returns a value in `[0, 10]`,
and it is monotonically non-decreasing in wind speed, in the rain rate, in
the snow rate, and non-increasing in visibility (all other inputs fixed). -/
theorem c3_severity_bounds_mono (weather : WeatherDict) (main : MainDict)
    (wind : WindDict) (rain : RainDict) (snow : SnowDict) (visibility : ℚ) :
    (0 ≤ calculate_weather_severity weather main wind rain snow visibility ∧
      calculate_weather_severity weather main wind rain snow visibility ≤ 10) ∧
    (∀ ws ws', ws ≤ ws' →
      calculate_weather_severity weather main { wind with speed := some ws } rain snow visibility ≤
        calculate_weather_severity weather main { wind with speed := some ws' } rain snow visibility) ∧
    (∀ r r', r ≤ r' →
      calculate_weather_severity weather main wind { rain with oneH := some r } snow visibility ≤
        calculate_weather_severity weather main wind { rain with oneH := some r' } snow visibility) ∧
    (∀ s s', s ≤ s' →
      calculate_weather_severity weather main wind rain { snow with oneH := some s } visibility ≤
        calculate_weather_severity weather main wind rain { snow with oneH := some s' } visibility) ∧
    (∀ v v', v ≤ v' →
      calculate_weather_severity weather main wind rain snow v' ≤
        calculate_weather_severity weather main wind rain snow v) := by
  refine ⟨⟨?_, ?_⟩, ?_, ?_, ?_, ?_⟩
  · unfold calculate_weather_severity
    refine le_min ?_ (by norm_num)
    have h1 := condition_score_nonneg (py_lower (weather.main.getD ""))
    have h2 := temp_score_nonneg (main.temp.getD 20)
    have h3 := wind_score_nonneg (wind.speed.getD 0)
    have h4 := precip_score_nonneg (rain.oneH.getD 0) (snow.oneH.getD 0)
    have h5 := visibility_score_nonneg visibility
    linarith
  · exact min_le_right _ _
  · intro ws ws' hle
    unfold calculate_weather_severity
    exact min_le_min (by have := wind_score_mono hle; simp only [Option.getD_some]; linarith) le_rfl
  · intro r r' hle
    unfold calculate_weather_severity
    exact min_le_min
      (by have := precip_score_mono_rain (snow.oneH.getD 0) hle
          simp only [Option.getD_some]; linarith) le_rfl
  · intro s s' hle
    unfold calculate_weather_severity
    exact min_le_min
      (by have := precip_score_mono_snow (rain.oneH.getD 0) hle
          simp only [Option.getD_some]; linarith) le_rfl
  · intro v v' hle
    unfold calculate_weather_severity
    exact min_le_min (by have := visibility_score_anti hle; linarith) le_rfl

/-- Witness for C3 at a concrete reading: light rain, 12 m/s wind,
3 mm/h rain rate, 4000 m visibility; wind raised from 12 to 22 m/s. -/
theorem c3_severity_bounds_mono_witness :
    (0 ≤ calculate_weather_severity ⟨some "Rain", none⟩ ⟨some 30, none, none, none⟩
        ⟨some 12, none, none⟩ ⟨some 3, none⟩ ⟨none, none⟩ 4000 ∧
      calculate_weather_severity ⟨some "Rain", none⟩ ⟨some 30, none, none, none⟩
        ⟨some 12, none, none⟩ ⟨some 3, none⟩ ⟨none, none⟩ 4000 ≤ 10) ∧
    ((12 : ℚ) ≤ 22 ∧
      calculate_weather_severity ⟨some "Rain", none⟩ ⟨some 30, none, none, none⟩
          ⟨some 12, none, none⟩ ⟨some 3, none⟩ ⟨none, none⟩ 4000 ≤
        calculate_weather_severity ⟨some "Rain", none⟩ ⟨some 30, none, none, none⟩
          ⟨some 22, none, none⟩ ⟨some 3, none⟩ ⟨none, none⟩ 4000) := by
  refine ⟨(c3_severity_bounds_mono ⟨some "Rain", none⟩ ⟨some 30, none, none, none⟩
    ⟨some 12, none, none⟩ ⟨some 3, none⟩ ⟨none, none⟩ 4000).1, by norm_num, ?_⟩
  exact (c3_severity_bounds_mono ⟨some "Rain", none⟩ ⟨some 30, none, none, none⟩
    ⟨some 12, none, none⟩ ⟨some 3, none⟩ ⟨none, none⟩ 4000).2.1 12 22 (by norm_num)

theorem severity_band_nonneg (s : ℚ) : 0 ≤ severity_band s := by
  unfold severity_band; split_ifs <;> norm_num

theorem severity_band_le_five (s : ℚ) : severity_band s ≤ 5 := by
  unfold severity_band; split_ifs <;> norm_num

/-- C4: `_calculate_train_impact` maps severity through the fixed bands
(≥8→5, ≥6→4, ≥4→3, ≥2→2, ≥1→1, else 0) and the override rules only ever
raise the result: snow condition with snow rate > 3 forces ≥ 4, rain or
thunderstorm condition with rain rate > 8 forces ≥ 4, wind > 25 forces ≥ 4,
visibility < 500 forces ≥ 3; when no override condition holds the result is
exactly the band value, and the result is always in `[0, 5]`. -/
theorem c4_train_impact (severity : ℚ) (weather : WeatherDict) (wind : WindDict)
    (rain : RainDict) (snow : SnowDict) (visibility : ℚ) :
    ((8 ≤ severity → severity_band severity = 5) ∧
      (6 ≤ severity ∧ severity < 8 → severity_band severity = 4) ∧
      (4 ≤ severity ∧ severity < 6 → severity_band severity = 3) ∧
      (2 ≤ severity ∧ severity < 4 → severity_band severity = 2) ∧
      (1 ≤ severity ∧ severity < 2 → severity_band severity = 1) ∧
      (severity < 1 → severity_band severity = 0)) ∧
    severity_band severity ≤ calculate_train_impact severity weather wind rain snow visibility ∧
    (py_str_in "snow" (py_lower (weather.main.getD "")) ∧ snow.oneH.getD 0 > 3 →
      4 ≤ calculate_train_impact severity weather wind rain snow visibility) ∧
    ((py_str_in "rain" (py_lower (weather.main.getD "")) ∨
        py_str_in "thunderstorm" (py_lower (weather.main.getD ""))) ∧ rain.oneH.getD 0 > 8 →
      4 ≤ calculate_train_impact severity weather wind rain snow visibility) ∧
    (wind.speed.getD 0 > 25 →
      4 ≤ calculate_train_impact severity weather wind rain snow visibility) ∧
    (visibility < 500 →
      3 ≤ calculate_train_impact severity weather wind rain snow visibility) ∧
    (¬(py_str_in "snow" (py_lower (weather.main.getD "")) ∧ snow.oneH.getD 0 > 3) →
      ¬((py_str_in "rain" (py_lower (weather.main.getD "")) ∨
          py_str_in "thunderstorm" (py_lower (weather.main.getD ""))) ∧ rain.oneH.getD 0 > 8) →
      ¬(wind.speed.getD 0 > 25) → ¬(visibility < 500) →
      calculate_train_impact severity weather wind rain snow visibility =
        severity_band severity) ∧
    (0 ≤ calculate_train_impact severity weather wind rain snow visibility ∧
      calculate_train_impact severity weather wind rain snow visibility ≤ 5) := by
  have hb0 := severity_band_nonneg severity
  have hb5 := severity_band_le_five severity
  refine ⟨?_, ?_⟩
  · unfold severity_band
    refine ⟨?_, ?_, ?_, ?_, ?_, ?_⟩ <;> intro h <;> (try obtain ⟨ha, hb⟩ := h) <;>
      split_ifs <;> first | rfl | (exfalso; linarith)
  · unfold calculate_train_impact
    dsimp only
    refine ⟨?_, ?_, ?_, ?_, ?_, ?_, ?_⟩
    · split_ifs <;> omega
    · intro h
      split_ifs <;> omega
    · intro h
      split_ifs <;> omega
    · intro h
      split_ifs <;> omega
    · intro h
      split_ifs <;> omega
    · intro h1 h2 h3 h4
      split_ifs
      rfl
    · split_ifs <;> omega

/-- Witness for C4 at a concrete reading: severity 5, snowing at 4 mm/h
(the heavy-snow override applies), clear wind, good visibility. -/
theorem c4_train_impact_witness :
    (py_str_in "snow" (py_lower ((some "Snow" : Option String).getD "")) ∧
      ((some (4 : ℚ) : Option ℚ).getD 0 > 3)) ∧
    4 ≤ calculate_train_impact 5 ⟨some "Snow", none⟩ ⟨none, none, none⟩
        ⟨none, none⟩ ⟨some 4, none⟩ 9000 := by
  refine ⟨⟨by decide, by norm_num⟩, ?_⟩
  exact (c4_train_impact 5 ⟨some "Snow", none⟩ ⟨none, none, none⟩ ⟨none, none⟩
    ⟨some 4, none⟩ 9000).2.2.1 ⟨by decide, by norm_num⟩

/-! ## `get_weather_by_coordinates` and friends (weather_service.py:40-125, 144-196, 340-366)

A processed weather reading (the dict built by `_process_weather_data` /
`_get_default_weather`).  The `timestamp` field (`datetime.now().isoformat()`
in the source) is carried as the rational wall-clock instant handed to the
embedded function. -/

structure Weather where
  condition : String
  description : String
  temperature : ℚ
  feels_like : ℚ
  humidity : ℚ
  pressure : ℚ
  wind_speed : ℚ
  wind_direction : ℚ
  wind_gust : ℚ
  clouds : ℚ
  visibility : ℚ
  rain_1h : ℚ
  rain_3h : ℚ
  snow_1h : ℚ
  snow_3h : ℚ
  timestamp : ℚ
  severity : ℚ
  train_impact : ℤ
  train_impact_description : String
deriving DecidableEq

/-- Embeds `WeatherService._get_impact_description` (the literal table, with the
`"Unknown impact"` fallback of `.get`). -/
def get_impact_description (impact_level : ℤ) : String :=
  if impact_level = 0 then "No impact on train operations expected."
  else if impact_level = 1 then "Minor impact. Slight delays possible."
  else if impact_level = 2 then "Moderate impact. Delays likely. Reduced speeds may be necessary."
  else if impact_level = 3 then "Significant impact. Delays certain. Some cancellations possible. Speed restrictions in effect."
  else if impact_level = 4 then "Severe impact. Significant delays and cancellations likely. Major speed restrictions."
  else if impact_level = 5 then "Extreme impact. Service suspension possible. Safety checks required before operation."
  else "Unknown impact"

/-- Embeds `WeatherService._get_default_weather`. -/
def get_default_weather (now : ℚ) : Weather where
  condition := "Unknown"
  description := "Weather data unavailable"
  temperature := 20
  feels_like := 20
  humidity := 50
  pressure := 1013
  wind_speed := 0
  wind_direction := 0
  wind_gust := 0
  clouds := 0
  visibility := 10
  rain_1h := 0
  rain_3h := 0
  snow_1h := 0
  snow_3h := 0
  timestamp := now
  severity := 0
  train_impact := 0
  train_impact_description := "No impact on train operations expected."

/-- The raw (already JSON-parsed) OpenWeatherMap payload, holding the keys
`_process_weather_data` reads with `raw_data.get(...)`.  An absent key is
`none`; `weather` defaults to `[{}]`, `visibility` to 10000. -/
structure RawWeather where
  weather : Option (List WeatherDict)
  main : MainDict
  wind : WindDict
  rain : RainDict
  snow : SnowDict
  clouds : Option ℚ
  visibility : Option ℚ

/-- Embeds `WeatherService._process_weather_data`.  Indexing `[0]` into an empty
`weather` list raises in the source; the surrounding `except` then returns
the default reading, which is the `none` branch here. -/
def process_weather_data (now : ℚ) (raw : RawWeather) : Weather :=
  match (raw.weather.getD [⟨none, none⟩]).head? with
  | none => get_default_weather now
  | some w =>
    let visibility := raw.visibility.getD 10000
    let severity := calculate_weather_severity w raw.main raw.wind raw.rain raw.snow visibility
    let impact_level := calculate_train_impact severity w raw.wind raw.rain raw.snow visibility
    { condition := w.main.getD "Unknown"
      description := w.description.getD "Unknown weather condition"
      temperature := raw.main.temp.getD 20
      feels_like := raw.main.feels_like.getD 20
      humidity := raw.main.humidity.getD 50
      pressure := raw.main.pressure.getD 1013
      wind_speed := raw.wind.speed.getD 0
      wind_direction := raw.wind.deg.getD 0
      wind_gust := raw.wind.gust.getD 0
      clouds := raw.clouds.getD 0
      visibility := visibility / 1000
      rain_1h := raw.rain.oneH.getD 0
      rain_3h := raw.rain.threeH.getD 0
      snow_1h := raw.snow.oneH.getD 0
      snow_3h := raw.snow.threeH.getD 0
      timestamp := now
      severity := severity
      train_impact := impact_level
      train_impact_description := get_impact_description impact_level }

/-- The mutable state of a `WeatherService` instance: the per-coordinate
cache, the per-coordinate fetch times, and the configured TTL.  The string
cache key `f"{lat},{lon}"` is injective on numeric coordinates, so it is
carried as the coordinate pair itself. -/
structure WeatherServiceState where
  cache : List ((ℚ × ℚ) × Weather)
  last_fetch_time : List ((ℚ × ℚ) × ℚ)
  cache_duration : ℚ

/-- The un-cached tail of `get_weather_by_coordinates`: perform the upstream
request (`fetch` is its outcome: the parsed payload, or a
`requests.exceptions.RequestException`), process and cache on success, fall
back to the (possibly expired) cache entry and then to the default on
failure. -/
def weather_fetch_path (st : WeatherServiceState) (now lat lon : ℚ)
    (fetch : Except Unit RawWeather) : Weather × WeatherServiceState :=
  match fetch with
  | .ok raw =>
    let processed := process_weather_data now raw
    (processed,
      { st with
          cache := assoc_upsert (lat, lon) processed st.cache
          last_fetch_time := assoc_upsert (lat, lon) now st.last_fetch_time })
  | .error _ =>
    match assoc_lookup (lat, lon) st.cache with
    | some w => (w, st)
    | none => (get_default_weather now, st)

/-- Embeds `WeatherService.get_weather_by_coordinates`. -/
def get_weather_by_coordinates (st : WeatherServiceState) (now lat lon : ℚ)
    (fetch : Except Unit RawWeather) : Weather × WeatherServiceState :=
  match assoc_lookup (lat, lon) st.cache with
  | some w =>
    if now - (assoc_lookup (lat, lon) st.last_fetch_time).getD 0 < st.cache_duration
    then (w, st)
    else weather_fetch_path st now lat lon fetch
  | none => weather_fetch_path st now lat lon fetch

/-- C2: when the upstream request fails, `get_weather_by_coordinates`
returns the literal default reading (condition "Unknown", temperature 20,
zero wind and precipitation, severity 0, impact 0) if no cache entry exists
for the coordinates, and returns the cached reading (fresh or expired)
whenever one exists. -/
theorem c2_weather_fallback (st : WeatherServiceState) (now lat lon : ℚ) :
    (assoc_lookup (lat, lon) st.cache = none →
      (get_weather_by_coordinates st now lat lon (.error ())).1 = get_default_weather now) ∧
    (∀ w, assoc_lookup (lat, lon) st.cache = some w →
      (get_weather_by_coordinates st now lat lon (.error ())).1 = w) ∧
    ((get_default_weather now).condition = "Unknown" ∧
      (get_default_weather now).temperature = 20 ∧
      (get_default_weather now).wind_speed = 0 ∧
      (get_default_weather now).rain_1h = 0 ∧
      (get_default_weather now).rain_3h = 0 ∧
      (get_default_weather now).snow_1h = 0 ∧
      (get_default_weather now).snow_3h = 0 ∧
      (get_default_weather now).severity = 0 ∧
      (get_default_weather now).train_impact = 0) := by
  refine ⟨?_, ?_, by simp [get_default_weather]⟩
  · intro hnone
    unfold get_weather_by_coordinates weather_fetch_path
    rw [hnone]
  · intro w hw
    unfold get_weather_by_coordinates weather_fetch_path
    rw [hw]
    split_ifs <;> simp [hw]

/-- Witness for C2: a concrete empty-cache state and a concrete one-entry
state, both with a failing provider. -/
theorem c2_weather_fallback_witness :
    (assoc_lookup ((10 : ℚ), (20 : ℚ)) (⟨[], [], 3600⟩ : WeatherServiceState).cache = none ∧
      (get_weather_by_coordinates ⟨[], [], 3600⟩ 7 10 20 (.error ())).1 = get_default_weather 7) ∧
    (assoc_lookup ((10 : ℚ), (20 : ℚ))
        (⟨[((10, 20), get_default_weather 3)], [], 3600⟩ : WeatherServiceState).cache =
        some (get_default_weather 3) ∧
      (get_weather_by_coordinates ⟨[((10, 20), get_default_weather 3)], [], 3600⟩ 7 10 20
        (.error ())).1 = get_default_weather 3) := by
  constructor
  · exact ⟨rfl, (c2_weather_fallback ⟨[], [], 3600⟩ 7 10 20).1 rfl⟩
  · refine ⟨by simp [assoc_lookup], ?_⟩
    exact (c2_weather_fallback ⟨[((10, 20), get_default_weather 3)], [], 3600⟩ 7 10 20).2.1
      (get_default_weather 3) (by simp [assoc_lookup])

/-! ## `get_weather_for_station` (weather_service.py:93-125) -/

/-- A value found under a coordinate key: either one that Python's
`float(...)` converts to a number, or one on which `float(...)` raises
(`ValueError`/`TypeError`). -/
inductive FloatVal where
  | conv (q : ℚ)
  | noconv
deriving DecidableEq

/-- Embeds `float(v)` as a Lean `Option`-valued function. -/
def to_float : FloatVal → Option ℚ
  | .conv q => some q
  | .noconv => none

/-- The `coordinates` sub-dict of a station record (keys `lat`, `lon`). -/
structure StationCoords where
  lat : Option FloatVal
  lon : Option FloatVal
deriving DecidableEq

/-- A station record as read by `get_weather_for_station`
(`station`, `station_code`, `coordinates` via `.get`).  A missing
`coordinates` key and a falsy (empty) coordinates dict both take the
`none` branch, exactly as `not coordinates` groups them in the source. -/
structure StationRecord where
  station : Option String
  station_code : Option String
  coordinates : Option StationCoords

/-- The dict returned by `get_weather_for_station`: a weather reading,
plus the `station` / `station_code` keys the function adds on its success
path (absent on the default path). -/
structure StationWeather where
  weather : Weather
  station : Option String
  station_code : Option String
deriving DecidableEq

/-- Embeds `WeatherService.get_weather_for_station`. -/
def get_weather_for_station (st : WeatherServiceState) (now : ℚ)
    (station_data : StationRecord) (fetch : Except Unit RawWeather) :
    StationWeather × WeatherServiceState :=
  match station_data.coordinates with
  | none => (⟨get_default_weather now, none, none⟩, st)
  | some c =>
    match c.lat, c.lon with
    | some latv, some lonv =>
      match to_float latv, to_float lonv with
      | some lat, some lon =>
        let r := get_weather_by_coordinates st now lat lon fetch
        (⟨r.1, some (station_data.station.getD "unknown"),
          some (station_data.station_code.getD "unknown")⟩, r.2)
      | _, _ => (⟨get_default_weather now, none, none⟩, st)
    | _, _ => (⟨get_default_weather now, none, none⟩, st)

/-- C10: with absent / incomplete / non-convertible coordinates,
`get_weather_for_station` returns the default reading (condition "Unknown",
severity 0, impact 0) with no `station` keys, independently of the upstream
provider and without touching the cache state; on the coordinate success
path the returned dict always carries the `station` and `station_code`
keys. -/
theorem c10_station_weather (st : WeatherServiceState) (now : ℚ)
    (sd : StationRecord) :
    ((sd.coordinates = none ∨
        (∃ c, sd.coordinates = some c ∧ (c.lat = none ∨ c.lon = none)) ∨
        (∃ c latv lonv, sd.coordinates = some c ∧ c.lat = some latv ∧
          c.lon = some lonv ∧ (to_float latv = none ∨ to_float lonv = none))) →
      ∀ fetch, get_weather_for_station st now sd fetch =
        (⟨get_default_weather now, none, none⟩, st)) ∧
    (∀ c latv lonv lat lon, sd.coordinates = some c → c.lat = some latv →
      c.lon = some lonv → to_float latv = some lat → to_float lonv = some lon →
      ∀ fetch,
        (get_weather_for_station st now sd fetch).1.station =
          some (sd.station.getD "unknown") ∧
        (get_weather_for_station st now sd fetch).1.station_code =
          some (sd.station_code.getD "unknown")) ∧
    ((get_default_weather now).condition = "Unknown" ∧
      (get_default_weather now).severity = 0 ∧
      (get_default_weather now).train_impact = 0) := by
  refine ⟨?_, ?_, by simp [get_default_weather]⟩
  · rintro (hc | ⟨c, hc, (hlat | hlon)⟩ | ⟨c, latv, lonv, hc, hlat, hlon, (hf | hf)⟩) fetch
    · unfold get_weather_for_station
      rw [hc]
    · unfold get_weather_for_station
      rw [hc]
      dsimp only
      rw [hlat]
    · unfold get_weather_for_station
      rw [hc]
      dsimp only
      rw [hlon]
      cases c.lat <;> rfl
    · unfold get_weather_for_station
      rw [hc]
      dsimp only
      rw [hlat, hlon]
      dsimp only
      rw [hf]
    · unfold get_weather_for_station
      rw [hc]
      dsimp only
      rw [hlat, hlon]
      dsimp only
      rw [hf]
      cases to_float latv <;> rfl
  · intro c latv lonv lat lon hc hlat hlon hflat hflon fetch
    unfold get_weather_for_station
    rw [hc]
    dsimp only
    rw [hlat, hlon]
    dsimp only
    rw [hflat, hflon]
    exact ⟨rfl, rfl⟩

/-- Witness for C10: a station record whose `lat` cannot be converted, and
one with full numeric coordinates. -/
theorem c10_station_weather_witness :
    (get_weather_for_station ⟨[], [], 3600⟩ 7
        ⟨some "CSMT", some "CSMT", some ⟨some .noconv, some (.conv 72)⟩⟩ (.error ()) =
      (⟨get_default_weather 7, none, none⟩, ⟨[], [], 3600⟩)) ∧
    ((get_weather_for_station ⟨[], [], 3600⟩ 7
        ⟨some "CSMT", some "CSMT", some ⟨some (.conv 18), some (.conv 72)⟩⟩
        (.error ())).1.station = some "CSMT") := by
  constructor
  · exact (c10_station_weather ⟨[], [], 3600⟩ 7
      ⟨some "CSMT", some "CSMT", some ⟨some .noconv, some (.conv 72)⟩⟩).1
      (Or.inr (Or.inr ⟨⟨some .noconv, some (.conv 72)⟩, .noconv, .conv 72,
        rfl, rfl, rfl, Or.inl rfl⟩)) (.error ())
  · exact ((c10_station_weather ⟨[], [], 3600⟩ 7
      ⟨some "CSMT", some "CSMT", some ⟨some (.conv 18), some (.conv 72)⟩⟩).2.1
      ⟨some (.conv 18), some (.conv 72)⟩ (.conv 18) (.conv 72) 18 72
      rfl rfl rfl rfl rfl (.error ())).1

/-! ## `TrainOptimizationModel.get_weather_data` (train_optimization_model.py:168-210)

The simpler, station-name-keyed weather variant. -/

/-- The four-key weather dict this variant returns. -/
structure SimpleWeather where
  condition : String
  temperature : ℚ
  wind_speed : ℚ
  precipitation : ℚ
deriving DecidableEq

/-- The literal fallback dict
`{'condition': 'Clear', 'temperature': 25, 'wind_speed': 5, 'precipitation': 0}`
returned on every failure path of `get_weather_data`. -/
def simple_default_weather : SimpleWeather where
  condition := "Clear"
  temperature := 25
  wind_speed := 5
  precipitation := 0

/-- The `coordinates` value of a station entry in `stations.json`: the
literal string `'N/A'`, or a dict with possibly-missing / possibly-falsy
`lat` / `lon` values (`not coordinates.get('lat')` is true for a missing
key, `None`, `0` or an empty string; the numeric cases are carried as
`Option ℚ` with `some 0` falsy). -/
inductive StationCoordsVal where
  | na
  | coords (lat lon : Option ℚ)

/-- A stations-data entry as read by `get_weather_data`
(`station` via `.get`, `coordinates` via key test + subscript). -/
structure StationInfo where
  station : Option String
  coordinates : Option StationCoordsVal

/-- Embeds `not coordinates.get(k)` for a numeric-or-missing coordinate value. -/
def py_falsy_coord : Option ℚ → Bool
  | none => true
  | some q => q = 0

/-- The parsed 200-response payload of the OpenWeatherMap call
(`data['weather'][0]['main']`, `data['main']['temp']`, `data['wind']['speed']`
must be present — a missing key raises and is caught by the outer `except`,
which is the `ApiOutcome.failure` case; `data.get('rain', {}).get('1h', 0)`
is optional). -/
structure ApiData where
  condition : String
  temp : ℚ
  wind_speed : ℚ
  rain_1h : Option ℚ

/-- The outcome of the `requests.get` call in `get_weather_data`: a response
with an HTTP status code and (for status 200) a payload, or an exception. -/
inductive ApiOutcome where
  | resp (status : ℕ) (data : ApiData)
  | failure

/-- Embeds `next((s for s in self.stations_data if s.get('station','').lower() ==
station_name.lower()), None)`. -/
def find_station (stations : List StationInfo) (name : String) : Option StationInfo :=
  stations.find? (fun s => py_lower (s.station.getD "") == py_lower name)

/-- Embeds `TrainOptimizationModel.get_weather_data`.  `cached` is the result of
the 30-minute cache check (`some w` = fresh hit); the cache-refresh write on
the success path is not observable in the returned value and is omitted. -/
def get_weather_data (cached : Option SimpleWeather) (stations : List StationInfo)
    (station_name : String) (api : ApiOutcome) : SimpleWeather :=
  match cached with
  | some w => w
  | none =>
    match find_station stations station_name with
    | none => simple_default_weather
    | some info =>
      match info.coordinates with
      | none => simple_default_weather
      | some .na => simple_default_weather
      | some (.coords lat lon) =>
        if py_falsy_coord lat ∨ py_falsy_coord lon then simple_default_weather
        else
          match api with
          | .failure => simple_default_weather
          | .resp status data =>
            if status = 200 then
              ⟨data.condition, data.temp, data.wind_speed, data.rain_1h.getD 0⟩
            else simple_default_weather

/-- C9 counterexample: on the station-not-found failure path the default
reading has wind speed 5 m/s, not the zero wind speed the claim states. -/
theorem c9_default_wind_counterexample :
    get_weather_data none [] "Mumbai" .failure = simple_default_weather ∧
    (get_weather_data none [] "Mumbai" .failure).wind_speed = 5 ∧
    ((5 : ℚ) ≠ 0) := by
  refine ⟨rfl, rfl, by norm_num⟩

/-- C9 (amended): on every failure or missing-coordinate path of
`get_weather_data` (station not found, coordinates absent or `'N/A'` or
falsy, API non-200 status, request exception), the returned default reading
has condition "Clear", temperature 25 (within 20-25 degrees), wind speed
5 m/s, and zero precipitation. -/
theorem c9_weather_data_default (stations : List StationInfo)
    (station_name : String) (api : ApiOutcome)
    (hfail : find_station stations station_name = none ∨
      (∃ info, find_station stations station_name = some info ∧
        (info.coordinates = none ∨ info.coordinates = some .na ∨
          (∃ lat lon, info.coordinates = some (.coords lat lon) ∧
            (py_falsy_coord lat ∨ py_falsy_coord lon)))) ∨
      api = .failure ∨
      (∃ status data, api = .resp status data ∧ status ≠ 200)) :
    get_weather_data none stations station_name api = simple_default_weather ∧
    (simple_default_weather.condition = "Clear" ∧
      simple_default_weather.temperature = 25 ∧
      20 ≤ simple_default_weather.temperature ∧
      simple_default_weather.temperature ≤ 25 ∧
      simple_default_weather.wind_speed = 5 ∧
      simple_default_weather.precipitation = 0) := by
  refine ⟨?_, rfl, rfl, by decide, by decide, rfl, rfl⟩
  unfold get_weather_data
  rcases hfail with hf | ⟨info, hf, hc⟩ | hf | ⟨status, data, hf, hs⟩
  · rw [hf]
  · rw [hf]
    dsimp only
    rcases hc with hc | hc | ⟨lat, lon, hc, hfalsy⟩
    · rw [hc]
    · rw [hc]
    · rw [hc]
      dsimp only
      rw [if_pos hfalsy]
  · cases hfind : find_station stations station_name with
    | none => rfl
    | some info =>
      dsimp only
      cases info.coordinates with
      | none => rfl
      | some cv =>
        cases cv with
        | na => rfl
        | coords lat lon =>
          dsimp only
          split_ifs with h
          · rfl
          · rw [hf]
  · cases hfind : find_station stations station_name with
    | none => rfl
    | some info =>
      dsimp only
      cases info.coordinates with
      | none => rfl
      | some cv =>
        cases cv with
        | na => rfl
        | coords lat lon =>
          dsimp only
          split_ifs with h
          · rfl
          · rw [hf]
            dsimp only
            rw [if_neg hs]

/-- Witness for C9's amended theorem: concrete API non-200 outcome with a
found station and good coordinates. -/
theorem c9_weather_data_default_witness :
    get_weather_data none [⟨some "Pune", some (.coords (some 18) (some 73))⟩] "Pune"
        (.resp 404 ⟨"Rain", 20, 3, none⟩) = simple_default_weather ∧
    simple_default_weather.wind_speed = 5 := by
  refine ⟨(c9_weather_data_default
    [⟨some "Pune", some (.coords (some 18) (some 73))⟩] "Pune"
    (.resp 404 ⟨"Rain", 20, 3, none⟩)
    (Or.inr (Or.inr (Or.inr ⟨404, ⟨"Rain", 20, 3, none⟩, rfl, by norm_num⟩)))).1, rfl⟩

/-! ## `predict_train_delay` / `predict_section_congestion`
(train_optimization_model.py:488-526)

The sklearn pipeline call inside the `try` is an input: `some v` is a
prediction that returned `v`, `none` is a raised exception (including the
`NotFittedError` of a never-trained pipeline — `_initialize_models` always
puts the untrained pipelines into `self.models`, so "model not yet trained"
surfaces as the exception case, while `has_model` embeds the
`'delay' not in self.models` membership test). -/

/-- Embeds `TrainOptimizationModel.predict_train_delay`. -/
def predict_train_delay (has_model : Bool) (prediction : Option ℚ) : ℚ :=
  if ¬has_model then 0
  else
    match prediction with
    | none => 0
    | some delay => max 0 delay

/-- Embeds `TrainOptimizationModel.predict_section_congestion`. -/
def predict_section_congestion (has_model : Bool) (prediction : Option ℚ) : ℚ :=
  if ¬has_model then 50
  else
    match prediction with
    | none => 50
    | some congestion => max 0 (min 100 congestion)

/-- C7: `predict_section_congestion` always returns a value in `[0, 100]`
and returns exactly 50 when the model is missing or the prediction raises;
`predict_train_delay` always returns a nonnegative value and returns
exactly 0 when the model is missing or the prediction raises.  Both are
total functions: no input escapes as an error. -/
theorem c7_prediction_defaults (has_model : Bool) (prediction : Option ℚ) :
    (0 ≤ predict_train_delay has_model prediction) ∧
    (has_model = false ∨ prediction = none →
      predict_train_delay has_model prediction = 0) ∧
    (0 ≤ predict_section_congestion has_model prediction ∧
      predict_section_congestion has_model prediction ≤ 100) ∧
    (has_model = false ∨ prediction = none →
      predict_section_congestion has_model prediction = 50) := by
  refine ⟨?_, ?_, ⟨?_, ?_⟩, ?_⟩
  · cases has_model <;> cases prediction <;>
      simp [predict_train_delay, le_sup_left]
  · rintro (h | h)
    · subst h
      cases prediction <;> simp [predict_train_delay]
    · subst h
      cases has_model <;> simp [predict_train_delay]
  · cases has_model <;> cases prediction <;>
      simp [predict_section_congestion, le_sup_left]
  · cases has_model <;> cases prediction <;>
      simp [predict_section_congestion, sup_le_iff, inf_le_left] <;> norm_num
  · rintro (h | h)
    · subst h
      cases prediction <;> simp [predict_section_congestion]
    · subst h
      cases has_model <;> simp [predict_section_congestion]

/-- Witness for C7: the untrained-model / raised-prediction case. -/
theorem c7_prediction_defaults_witness :
    ((false = false ∨ (none : Option ℚ) = none) ∧
      predict_train_delay false none = 0) ∧
    ((true = true ∨ (none : Option ℚ) = none) ∧
      predict_section_congestion true none = 50) := by
  refine ⟨⟨Or.inl rfl, ?_⟩, ⟨Or.inr rfl, ?_⟩⟩
  · exact (c7_prediction_defaults false none).2.1 (Or.inl rfl)
  · exact (c7_prediction_defaults true none).2.2.2 (Or.inr rfl)

/-! ## `train_models` (train_optimization_model.py:388-486)

The prepared feature sets and the sklearn fit/evaluate outcomes are inputs:
`n_delay` / `n_congestion` are `len(X_delay)` / `len(X_congestion)`;
`delay_cols_ok` / `congestion_cols_ok` are the per-model required-column
checks; `delay_fit` / `congestion_fit` are `some (mse, mae, r2)` for a
successful fit+evaluation and `none` for a raised exception.  The
`_save_models` disk write has no effect on the returned value or the
in-memory metrics and is omitted. -/

/-- One entry of `self.accuracy` (`mse`, `mae`, `r2`, derived `accuracy`). -/
structure ModelMetrics where
  mse : ℚ
  mae : ℚ
  r2 : ℚ
  accuracy : ℚ
deriving DecidableEq

/-- The mutable training state of `TrainOptimizationModel`: the
`self.accuracy` dict (keys `delay`, `congestion`) and `self.last_trained`. -/
structure TrainingState where
  accuracy_delay : Option ModelMetrics
  accuracy_congestion : Option ModelMetrics
  last_trained : Option String
deriving DecidableEq

/-- Embeds `TrainOptimizationModel.train_models`, returning the Python return
value paired with the post-call training state. -/
def train_models (st : TrainingState) (n_delay : ℕ) (n_congestion : ℕ)
    (delay_cols_ok : Bool) (congestion_cols_ok : Bool)
    (delay_fit : Option (ℚ × ℚ × ℚ)) (congestion_fit : Option (ℚ × ℚ × ℚ))
    (now : String) : Bool × TrainingState :=
  if n_delay < 10 then (false, st)
  else if n_congestion < 5 then (false, st)
  else if ¬delay_cols_ok then (false, st)
  else
    match delay_fit with
    | none => (false, st)
    | some (mse, mae, r2) =>
      let st1 := { st with accuracy_delay := some ⟨mse, mae, r2, max 0 (100 - mae)⟩ }
      if ¬congestion_cols_ok then (false, st1)
      else
        match congestion_fit with
        | none => (false, st1)
        | some (mse2, mae2, r22) =>
          let st2 := { st1 with
            accuracy_congestion := some ⟨mse2, mae2, r22, max 0 (100 - mae2)⟩
            last_trained := some now }
          (true, st2)

/-- C6: with fewer than 10 delay rows or fewer than 5 congestion rows,
`train_models` returns `False` and leaves the stored accuracy metrics and
last-trained timestamp exactly as they were (the whole state is returned
unchanged). -/
theorem c6_train_models_min_samples (st : TrainingState) (n_delay n_congestion : ℕ)
    (delay_cols_ok congestion_cols_ok : Bool)
    (delay_fit congestion_fit : Option (ℚ × ℚ × ℚ)) (now : String)
    (hmin : n_delay < 10 ∨ n_congestion < 5) :
    train_models st n_delay n_congestion delay_cols_ok congestion_cols_ok
      delay_fit congestion_fit now = (false, st) := by
  unfold train_models
  rcases hmin with h | h
  · rw [if_pos h]
  · split_ifs <;> rfl

/-- Witness for C6: retraining with 3 delay rows (and plenty of congestion
rows) on a state holding earlier metrics. -/
theorem c6_train_models_min_samples_witness :
    ((3 : ℕ) < 10 ∨ (8 : ℕ) < 5) ∧
    train_models ⟨some ⟨1, 2, 3, 98⟩, none, some "t0"⟩ 3 8 true true
        (some (1, 1, 1)) (some (1, 1, 1)) "t1" =
      (false, ⟨some ⟨1, 2, 3, 98⟩, none, some "t0"⟩) := by
  exact ⟨Or.inl (by norm_num),
    c6_train_models_min_samples ⟨some ⟨1, 2, 3, 98⟩, none, some "t0"⟩ 3 8 true true
      (some (1, 1, 1)) (some (1, 1, 1)) "t1" (Or.inl (by norm_num))⟩

/-! ## `generate_recommendations` (train_optimization_model.py:572-746)

The per-train loop body, from the point where the features are assembled
(line 664) to the end of the iteration (line 740).  The ML outputs
(`predicted_delay` from `predict_train_delay`, `congestion_level` from
`predict_section_congestion`), Python's `hash(train_id)`, the wall-clock
timestamp string, and the already-extracted train/station fields are the
context. -/

structure TrainRecCtx where
  train_id : String
  /-- Embeds `train.get('type', 'Passenger')`. -/
  train_type : String
  /-- accumulated delay in minutes (`delay_hours * 60 + delay_minutes`). -/
  total_delay : ℤ
  predicted_delay : ℚ
  congestion_level : ℚ
  /-- Embeds `weather['condition']` for the current station. -/
  weather_condition : String
  /-- Embeds `distance_to_next` (timetable km delta). -/
  distance_to_next : ℚ
  /-- Embeds `train.get('status')`. -/
  status : String
  current_station : String
  next_station : String
  /-- whether the next station was found in `station_data`. -/
  next_station_found : Bool
  /-- Embeds `next_station_info.get('platforms', 0)`. -/
  next_station_platforms : ℤ
  /-- Python `hash(train_id)`. -/
  train_id_hash : ℤ
  /-- Embeds `datetime.now().strftime('%Y%m%d%H%M%S')`. -/
  ts : String

/-- One recommendation record (the dict literals of
`generate_recommendations`). -/
structure Recommendation where
  id : String
  type : String
  title : String
  description : String
  confidence : ℚ
  impact : String
  timeSaving : String
  affectedTrains : List String
  implementation : String
  reasoning : String
  status : String

/-- The recommendations emitted for one train by the loop body of
`generate_recommendations` (in emission order; the final cross-train sort
does not alter any record). -/
def generate_train_recommendations (c : TrainRecCtx) : List Recommendation :=
  let tid := c.train_id
  let wc := c.weather_condition
  let cs := c.current_station
  let ns := c.next_station
  let ts := c.ts
  let total_delay := c.total_delay
  let predicted_delay := c.predicted_delay
  let congestion_level := c.congestion_level
  let optimal_speed := recommend_optimal_speed
    ⟨some c.train_type, some wc, some (total_delay : ℚ)⟩ congestion_level
  let section_id := cs ++ "-" ++ ns
  let pd_round := round predicted_delay
  let cong_round := round congestion_level
  let time_saving := round ((total_delay : ℚ) * 0.6)
  let spd80 := round (optimal_speed * 0.8)
  let spd70 := round (optimal_speed * 0.7)
  let sched : List Recommendation :=
    if total_delay > 15 ∨ predicted_delay > 10 then
      [{ id := s!"rec-{tid}-{ts}"
         type := "scheduling"
         title := s!"Delay Recovery: {tid}"
         description := s!"Train {tid} is currently {total_delay} minutes delayed. Optimize speed and prioritize at signals to recover time."
         confidence := min 95 (max 70 (100 - predicted_delay))
         impact := if total_delay > 30 then "High" else "Medium"
         timeSaving := s!"{time_saving} minutes"
         affectedTrains := [tid]
         implementation := s!"1. Increase speed to {optimal_speed} km/h where safe\n2. Prioritize at signals\n3. Reduce station dwell time\n4. Update passenger information"
         reasoning := s!"ML model predicts additional {pd_round} min delay without intervention. Weather: {wc}. Section congestion: {cong_round}%."
         status := "pending" }]
    else []
  let congestion : List Recommendation :=
    if congestion_level > 70 then
      [{ id := s!"rec-{section_id}-{ts}"
         type := "routing"
         title := s!"Congestion Alert: {cs} to {ns}"
         description := s!"High congestion ({cong_round}%) detected in section {cs} to {ns}. Implement traffic flow management."
         confidence := 90
         impact := if congestion_level > 85 then "High" else "Medium"
         timeSaving := "15-20 minutes system-wide"
         affectedTrains := [tid]
         implementation := s!"1. Reduce speed to {spd80} km/h\n2. Increase train spacing\n3. Hold low-priority trains at previous stations\n4. Divert trains if alternate routes available"
         reasoning := s!"ML model detects critical congestion that will cause cascading delays. Weather: {wc}. Current traffic density exceeds optimal levels."
         status := "pending" }]
    else []
  let weather_rec : List Recommendation :=
    if wc ∈ (["Rain", "Snow", "Fog", "Thunderstorm"] : List String) ∧
        c.distance_to_next > 10 then
      [{ id := s!"rec-weather-{tid}-{ts}"
         type := "safety"
         title := s!"Weather Protocol: {wc}"
         description := s!"{wc} detected on route to {ns}. Implement weather safety protocols."
         confidence := 95
         impact := if wc ∈ (["Thunderstorm", "Snow"] : List String) then "High" else "Medium"
         timeSaving := "Safety Priority"
         affectedTrains := [tid]
         implementation := s!"1. Reduce speed to {spd70} km/h\n2. Increase braking distance\n3. Activate weather monitoring\n4. Update passengers on weather-related precautions"
         reasoning := s!"Weather conditions ({wc}) require safety measures. ML model recommends speed reduction and enhanced monitoring."
         status := "pending" }]
    else []
  let platform : List Recommendation :=
    if c.status = "running" ∧ c.distance_to_next < 5 then
      if c.next_station_found ∧ c.next_station_platforms > 1 then
        let optimal_platform : ℤ :=
          if c.next_station_platforms ≥ 2 then
            c.train_id_hash % c.next_station_platforms + 1
          else 1
        [{ id := s!"rec-platform-{tid}-{ts}"
           type := "routing"
           title := s!"Platform Optimization: {ns}"
           description := s!"Approaching {ns}. Recommend using Platform {optimal_platform} for optimal traffic flow."
           confidence := 85
           impact := "Medium"
           timeSaving := "3-5 minutes"
           affectedTrains := [tid]
           implementation := s!"1. Allocate Platform {optimal_platform}\n2. Update signaling system\n3. Notify station staff\n4. Update passenger information"
           reasoning := s!"ML model analyzed current platform utilization and train characteristics. Platform {optimal_platform} provides optimal throughput and minimizes conflicts."
           status := "pending" }]
      else []
    else []
  sched ++ congestion ++ weather_rec ++ platform

theorem mem_ite_singleton {α : Type} {P : Prop} [Decidable P] {r a : α} :
    (r ∈ if P then [a] else ([] : List α)) ↔ P ∧ r = a := by
  split_ifs with h <;> simp [h]

/-- C5: the loop body emits a scheduling recommendation iff the accumulated
delay exceeds 15 minutes or the predicted additional delay exceeds 10
minutes; an emitted scheduling recommendation has confidence
`min(95, max(70, 100 - predicted_delay))`, impact "High" exactly when the
accumulated delay exceeds 30 minutes (else "Medium"), and a time-saving
estimate of `round(total_delay * 0.6)` minutes. -/
theorem c5_scheduling_recommendation (c : TrainRecCtx) :
    ((∃ r ∈ generate_train_recommendations c, r.type = "scheduling") ↔
      (c.total_delay > 15 ∨ c.predicted_delay > 10)) ∧
    (∀ r ∈ generate_train_recommendations c, r.type = "scheduling" →
      r.confidence = min 95 (max 70 (100 - c.predicted_delay)) ∧
      r.impact = (if c.total_delay > 30 then "High" else "Medium") ∧
      r.timeSaving = toString (round ((c.total_delay : ℚ) * 0.6)) ++ " minutes") := by
  unfold generate_train_recommendations
  dsimp only
  constructor
  · constructor
    · rintro ⟨r, hr, htype⟩
      simp only [List.mem_append] at hr
      rcases hr with ((h | h) | h) | h
      · exact (mem_ite_singleton.mp h).1
      · obtain ⟨-, rfl⟩ := mem_ite_singleton.mp h
        simp at htype
      · obtain ⟨-, rfl⟩ := mem_ite_singleton.mp h
        simp at htype
      · by_cases hA : (c.status = "running" ∧ c.distance_to_next < 5)
        · rw [if_pos hA] at h
          by_cases hB : (c.next_station_found = true ∧ c.next_station_platforms > 1)
          · rw [if_pos hB] at h
            simp only [List.mem_singleton] at h
            subst h
            simp at htype
          · rw [if_neg hB] at h
            exact absurd h (List.not_mem_nil r)
        · rw [if_neg hA] at h
          exact absurd h (List.not_mem_nil r)
    · intro hcond
      exact ⟨_, List.mem_append_left _ (List.mem_append_left _
        (List.mem_append_left _ (mem_ite_singleton.mpr ⟨hcond, rfl⟩))), rfl⟩
  · intro r hr htype
    simp only [List.mem_append] at hr
    rcases hr with ((h | h) | h) | h
    · obtain ⟨-, rfl⟩ := mem_ite_singleton.mp h
      exact ⟨rfl, rfl, rfl⟩
    · obtain ⟨-, rfl⟩ := mem_ite_singleton.mp h
      simp at htype
    · obtain ⟨-, rfl⟩ := mem_ite_singleton.mp h
      simp at htype
    · by_cases hA : (c.status = "running" ∧ c.distance_to_next < 5)
      · rw [if_pos hA] at h
        by_cases hB : (c.next_station_found = true ∧ c.next_station_platforms > 1)
        · rw [if_pos hB] at h
          simp only [List.mem_singleton] at h
          subst h
          simp at htype
        · rw [if_neg hB] at h
          exact absurd h (List.not_mem_nil r)
      · rw [if_neg hA] at h
        exact absurd h (List.not_mem_nil r)

/-- Witness for C5: a 20-minute-delayed express train (scheduling
recommendation emitted via the delay branch). -/
theorem c5_scheduling_recommendation_witness :
    ((20 : ℤ) > 15 ∨ (5 : ℚ) > 10) ∧
    (∃ r ∈ generate_train_recommendations
      ⟨"T1", "Express", 20, 5, 40, "Rain", 15, "running", "a", "b", true, 4, 7, "ts"⟩,
      r.type = "scheduling") := by
  refine ⟨Or.inl (by norm_num), ?_⟩
  exact (c5_scheduling_recommendation
    ⟨"T1", "Express", 20, 5, 40, "Rain", 15, "running", "a", "b", true, 4, 7, "ts"⟩).1.mpr
    (Or.inl (by norm_num))

/-! ## Section graph of `prepare_section_features`
(train_optimization_model.py:291-318)

The first two loops of `prepare_section_features`: the `sections` dict is
keyed by `f"{station_data[i]['station']}-{station_data[i+1]['station']}"`
over consecutive entries of the static station list, with
`section_length` initialised to 0; then every pair of adjacent
(lowercased) timetable stops of every train assigns its distance delta to
the matching key, trying the observed ordering first and the reverse
ordering second. -/

/-- Adjacent pairs of a list (`range(len(xs) - 1)` indexing). -/
def consec_pairs {α : Type} : List α → List (α × α)
  | [] => []
  | [_] => []
  | a :: b :: rest => (a, b) :: consec_pairs (b :: rest)

/-- Embeds the key string `f"{start}-{end}"`. -/
def section_key (a b : String) : String := a ++ "-" ++ b

/-- The initial `sections` dict (lengths only), built from consecutive
station-list entries. -/
def init_sections (stations : List String) : List (String × ℚ) :=
  (consec_pairs stations).foldl
    (fun m p => assoc_upsert (section_key p.1 p.2) 0 m) []

/-- All adjacent-stop observations of the timetable, in train order: each
train contributes `(start.lower(), end.lower(), distance delta)` per
adjacent stop pair; a stop is `(station_name, distance_km)`. -/
def timetable_obs (trains : List (List (String × ℚ))) :
    List (String × String × ℚ) :=
  trains.flatMap (fun stops =>
    (consec_pairs stops).map (fun p => (py_lower p.1.1, py_lower p.2.1, p.2.2 - p.1.2)))

/-- One timetable observation applied to the `sections` dict: assign the
delta to `"{start}-{end}"` if that key exists, else to `"{end}-{start}"`
if that key exists, else drop the observation. -/
def apply_obs (m : List (String × ℚ)) (o : String × String × ℚ) :
    List (String × ℚ) :=
  if (assoc_lookup (section_key o.1 o.2.1) m).isSome then
    assoc_upsert (section_key o.1 o.2.1) o.2.2 m
  else if (assoc_lookup (section_key o.2.1 o.1) m).isSome then
    assoc_upsert (section_key o.2.1 o.1) o.2.2 m
  else m

/-- The section-length dict after both loops of
`prepare_section_features`. -/
def section_length_table (stations : List String)
    (trains : List (List (String × ℚ))) : List (String × ℚ) :=
  (timetable_obs trains).foldl apply_obs (init_sections stations)

/-- Whether an observation lands on key `k` of the dict whose keys are
those of `m0`: directly, or through the reverse ordering when the direct
key is absent. -/
def obs_hits (m0 : List (String × ℚ)) (k : String)
    (o : String × String × ℚ) : Bool :=
  (section_key o.1 o.2.1 == k) ||
    ((assoc_lookup (section_key o.1 o.2.1) m0).isNone &&
      (section_key o.2.1 o.1 == k))

theorem assoc_lookup_upsert_self {α β : Type} [DecidableEq α] (k : α) (v : β)
    (m : List (α × β)) : assoc_lookup k (assoc_upsert k v m) = some v := by
  induction m with
  | nil => simp [assoc_upsert, assoc_lookup]
  | cons p rest ih =>
    obtain ⟨a, b⟩ := p
    unfold assoc_upsert
    by_cases h : a = k
    · rw [if_pos h]
      simp [assoc_lookup]
    · rw [if_neg h]
      unfold assoc_lookup
      rw [if_neg h]
      exact ih

theorem assoc_lookup_upsert_ne {α β : Type} [DecidableEq α] {k k' : α}
    (h : k' ≠ k) (v : β) (m : List (α × β)) :
    assoc_lookup k' (assoc_upsert k v m) = assoc_lookup k' m := by
  induction m with
  | nil =>
    unfold assoc_upsert assoc_lookup
    rw [if_neg (fun hh => h hh.symm)]
    rfl
  | cons p rest ih =>
    obtain ⟨a, b⟩ := p
    unfold assoc_upsert
    by_cases ha : a = k
    · rw [if_pos ha]
      unfold assoc_lookup
      rw [if_neg (fun hh => h hh.symm), if_neg (by rw [ha]; exact fun hh => h hh.symm)]
    · rw [if_neg ha]
      unfold assoc_lookup
      by_cases ha' : a = k'
      · rw [if_pos ha', if_pos ha']
      · rw [if_neg ha', if_neg ha']
        exact ih

theorem apply_obs_isSome (m : List (String × ℚ)) (o : String × String × ℚ)
    (k' : String) :
    (assoc_lookup k' (apply_obs m o)).isSome = (assoc_lookup k' m).isSome := by
  unfold apply_obs
  split_ifs with h1 h2
  · by_cases hk : k' = section_key o.1 o.2.1
    · subst hk
      rw [assoc_lookup_upsert_self, h1]
      rfl
    · rw [assoc_lookup_upsert_ne hk]
  · by_cases hk : k' = section_key o.2.1 o.1
    · subst hk
      rw [assoc_lookup_upsert_self, h2]
      rfl
    · rw [assoc_lookup_upsert_ne hk]
  · rfl

theorem foldl_apply_obs_isSome (obs : List (String × String × ℚ)) :
    ∀ (m : List (String × ℚ)) (k' : String),
    (assoc_lookup k' (obs.foldl apply_obs m)).isSome =
      (assoc_lookup k' m).isSome := by
  induction obs with
  | nil => intro m k'; rfl
  | cons o rest ih =>
    intro m k'
    rw [List.foldl_cons, ih, apply_obs_isSome]

theorem apply_obs_hit {m0 m : List (String × ℚ)} {k : String}
    {o : String × String × ℚ}
    (hinv : ∀ k', (assoc_lookup k' m).isSome = (assoc_lookup k' m0).isSome)
    (hk : (assoc_lookup k m0).isSome = true)
    (hhit : obs_hits m0 k o = true) :
    assoc_lookup k (apply_obs m o) = some o.2.2 := by
  unfold obs_hits at hhit
  simp only [Bool.or_eq_true, Bool.and_eq_true, beq_iff_eq,
    Option.isNone_iff_eq_none] at hhit
  unfold apply_obs
  rcases hhit with hsid | ⟨habs, hrsid⟩
  · have hp : (assoc_lookup (section_key o.1 o.2.1) m).isSome = true := by
      rw [hsid, hinv]
      exact hk
    rw [if_pos hp, hsid]
    exact assoc_lookup_upsert_self k o.2.2 m
  · have habs' : (assoc_lookup (section_key o.1 o.2.1) m).isSome = false := by
      rw [hinv, habs]
      rfl
    rw [if_neg (by rw [habs']; exact Bool.false_ne_true)]
    have hp : (assoc_lookup (section_key o.2.1 o.1) m).isSome = true := by
      rw [hrsid, hinv]
      exact hk
    rw [if_pos hp, hrsid]
    exact assoc_lookup_upsert_self k o.2.2 m

theorem apply_obs_miss {m0 m : List (String × ℚ)} {k : String}
    {o : String × String × ℚ}
    (hinv : ∀ k', (assoc_lookup k' m).isSome = (assoc_lookup k' m0).isSome)
    (hmiss : obs_hits m0 k o = false) :
    assoc_lookup k (apply_obs m o) = assoc_lookup k m := by
  unfold obs_hits at hmiss
  simp only [Bool.or_eq_false_iff, Bool.and_eq_false_iff, beq_eq_false_iff_ne,
    ne_eq, Option.isNone_iff_eq_none] at hmiss
  obtain ⟨hsid, hrest⟩ := hmiss
  unfold apply_obs
  split_ifs with h1 h2
  · exact assoc_lookup_upsert_ne (fun hh => hsid hh.symm) o.2.2 m
  · have habs : assoc_lookup (section_key o.1 o.2.1) m0 = none := by
      have := hinv (section_key o.1 o.2.1)
      rw [Bool.eq_iff_iff] at this
      cases hc : assoc_lookup (section_key o.1 o.2.1) m0 with
      | none => rfl
      | some v =>
        exfalso
        apply h1
        rw [this, hc]
        rfl
    rcases hrest with hcontra | hrne
    · exfalso
      rw [habs] at hcontra
      exact absurd hcontra (by decide)
    · exact assoc_lookup_upsert_ne (fun hh => hrne hh.symm) o.2.2 m
  · rfl

theorem foldl_apply_obs_lookup {k : String} {m0 : List (String × ℚ)}
    (hk : (assoc_lookup k m0).isSome = true) :
    ∀ (obs : List (String × String × ℚ)) (m : List (String × ℚ)),
    (∀ k', (assoc_lookup k' m).isSome = (assoc_lookup k' m0).isSome) →
    assoc_lookup k (obs.foldl apply_obs m) =
      (obs.filter (obs_hits m0 k)).foldl (fun _ o => some o.2.2)
        (assoc_lookup k m) := by
  intro obs
  induction obs with
  | nil => intro m _; rfl
  | cons o rest ih =>
    intro m hinv
    have hinv' : ∀ k',
        (assoc_lookup k' (apply_obs m o)).isSome =
          (assoc_lookup k' m0).isSome := fun k' => by
      rw [apply_obs_isSome, hinv]
    rw [List.foldl_cons, ih (apply_obs m o) hinv']
    cases hh : obs_hits m0 k o
    · rw [List.filter_cons_of_neg (by rw [hh]; exact Bool.false_ne_true),
        apply_obs_miss hinv hh]
    · rw [List.filter_cons_of_pos hh, List.foldl_cons,
        apply_obs_hit hinv hk hh]

/-- The delta of the last observation of a list, or a default when the
list is empty. -/
def last_delta (l : List (String × String × ℚ)) (dflt : Option ℚ) : Option ℚ :=
  match l.getLast? with
  | some o => some o.2.2
  | none => dflt

theorem foldl_some_last :
    ∀ (l : List (String × String × ℚ)) (init : Option ℚ),
    l.foldl (fun _ o => some o.2.2) init = last_delta l init := by
  intro l
  induction l with
  | nil => intro init; rfl
  | cons a l ih =>
    intro init
    rw [List.foldl_cons, ih]
    unfold last_delta
    cases l with
    | nil => rfl
    | cons b l' =>
      rw [List.getLast?_cons_cons]
      cases hc : (b :: l').getLast? with
      | none =>
        exfalso
        rw [List.getLast?_eq_none_iff] at hc
        exact List.cons_ne_nil b l' hc
      | some o => rfl

theorem init_sections_isSome (k : String) :
    ∀ (pairs : List (String × String)) (m : List (String × ℚ)),
    (assoc_lookup k (pairs.foldl
        (fun m p => assoc_upsert (section_key p.1 p.2) 0 m) m)).isSome = true ↔
      (k ∈ pairs.map (fun p => section_key p.1 p.2) ∨
        (assoc_lookup k m).isSome = true) := by
  intro pairs
  induction pairs with
  | nil =>
    intro m
    simp
  | cons p rest ih =>
    intro m
    rw [List.foldl_cons]
    rw [ih (assoc_upsert (section_key p.1 p.2) 0 m)]
    have hstep : (assoc_lookup k (assoc_upsert (section_key p.1 p.2) 0 m)).isSome = true ↔
        (k = section_key p.1 p.2 ∨ (assoc_lookup k m).isSome = true) := by
      by_cases hk : k = section_key p.1 p.2
      · subst hk
        rw [assoc_lookup_upsert_self]
        simp
      · rw [assoc_lookup_upsert_ne hk]
        simp [hk]
    rw [hstep]
    simp only [List.map_cons, List.mem_cons]
    tauto

/-- C8 (amended): the section keys of `prepare_section_features` are exactly
the consecutive pairs of the static station list (an adjacent timetable pair
outside that list creates no section); a timetable observation resolves to a
key canonically — the observed ordering first, the reverse ordering when the
direct key is absent — and, when a key is observed several times, its final
length is the delta of the LAST matching observation (not the first), the
initial 0 surviving only when no observation matches. -/
theorem c8_section_lengths (stations : List String)
    (trains : List (List (String × ℚ))) (k : String) :
    ((assoc_lookup k (section_length_table stations trains)).isSome =
      (assoc_lookup k (init_sections stations)).isSome) ∧
    ((assoc_lookup k (init_sections stations)).isSome = true ↔
      k ∈ (consec_pairs stations).map (fun p => section_key p.1 p.2)) ∧
    ((assoc_lookup k (init_sections stations)).isSome = true →
      assoc_lookup k (section_length_table stations trains) =
        last_delta ((timetable_obs trains).filter
            (obs_hits (init_sections stations) k))
          (assoc_lookup k (init_sections stations))) := by
  refine ⟨foldl_apply_obs_isSome _ _ _, ?_, ?_⟩
  · have h := init_sections_isSome k (consec_pairs stations) []
    unfold init_sections
    rw [h]
    simp [assoc_lookup]
  · intro hk
    unfold section_length_table
    rw [foldl_apply_obs_lookup hk (timetable_obs trains) (init_sections stations)
      (fun _ => rfl)]
    exact foldl_some_last
      ((timetable_obs trains).filter (obs_hits (init_sections stations) k))
      (assoc_lookup k (init_sections stations))

/-- C8 counterexample: two trains both traverse the station-list pair
`a`-`b`, the first with distance delta 10 km, the second with delta 20 km;
the stored section length is the LAST observation (20), not the first
observed delta (10) the claim requires.  Moreover a timetable-adjacent pair
(`b`, `c`) outside the static station list yields no section at all, so the
section graph is not derived from the timetable stops. -/
theorem c8_section_lengths_counterexample :
    assoc_lookup "a-b" (section_length_table ["a", "b"]
        [[("a", 0), ("b", 10)], [("a", 0), ("b", 20)]]) = some 20 ∧
    ((timetable_obs [[("a", 0), ("b", 10)], [("a", 0), ("b", 20)]]).filter
        (obs_hits (init_sections ["a", "b"]) "a-b")).head? =
      some ("a", "b", 10) ∧
    (20 : ℚ) ≠ 10 ∧
    assoc_lookup "b-c"
      (section_length_table ["a", "b"] [[("b", 0), ("c", 7)]]) = none := by
  refine ⟨?_, ?_, by norm_num, rfl⟩
  · have h : assoc_lookup "a-b" (section_length_table ["a", "b"]
        [[("a", 0), ("b", 10)], [("a", 0), ("b", 20)]]) = some ((20 : ℚ) - 0) := rfl
    rw [h]
    norm_num
  · have h : ((timetable_obs [[("a", 0), ("b", 10)], [("a", 0), ("b", 20)]]).filter
        (obs_hits (init_sections ["a", "b"]) "a-b")).head? =
        some ("a", "b", (10 : ℚ) - 0) := rfl
    rw [h]
    norm_num

/-- Witness for C8's amended theorem at the concrete two-train input. -/
theorem c8_section_lengths_witness :
    ((assoc_lookup "a-b" (init_sections ["a", "b"])).isSome = true) ∧
    assoc_lookup "a-b" (section_length_table ["a", "b"]
        [[("a", 0), ("b", 10)], [("a", 0), ("b", 20)]]) =
      last_delta ((timetable_obs [[("a", 0), ("b", 10)], [("a", 0), ("b", 20)]]).filter
          (obs_hits (init_sections ["a", "b"]) "a-b"))
        (assoc_lookup "a-b" (init_sections ["a", "b"])) := by
  refine ⟨by decide, ?_⟩
  exact (c8_section_lengths ["a", "b"]
    [[("a", 0), ("b", 10)], [("a", 0), ("b", 20)]] "a-b").2.2 (by decide)
